import Mathlib

/-!
Shallow embedding of the sub-workflow handler of flytepropeller
(`pkg/controller/nodes/subworkflow/subworkflow.go`) and proofs about its
phase-translation, output-propagation, failure-coordination, identity
assignment and abort logic.

External collaborators (the recursive node executor, the artifact store,
the node-status store and the re-enqueue callback) are represented as an
environment of pure outcome fields; each handler function is embedded as a
pure function from that environment to its returned transition, its
returned Go error, and a trace of the collaborator invocations it
performed, in order.
-/

namespace FlyteSub

/-- Go `error` values are modelled by their message string. -/
abbrev GoError := String

/-- Node identifiers, as in `v1alpha1.NodeID`. -/
abbrev NodeID := String

/-- Modelled from the source of the `core` protobuf package (not under
`src/`): the kind tag of `core.ExecutionError`. Only the constructors used
by the handler are needed. -/
inductive ErrorKind
  | unknown
  | user
  | system
deriving DecidableEq, Repr

/-- Modelled from the `core.ExecutionError` protobuf message (not under
`src/`): an execution error with a kind, a code and a message, as built by
`handler.PhaseInfoFailure`. -/
structure ExecutionError where
  kind : ErrorKind
  code : String
  message : String
deriving DecidableEq, Repr

/-- Error code constant `errors.SubWorkflowExecutionFailed` from the nodes
errors package (not under `src/`); its value is its name. -/
def SubWorkflowExecutionFailed : String := "SubWorkflowExecutionFailed"

/-- Error code constant `errors.RuntimeExecutionError` from the nodes
errors package (not under `src/`); its value is its name. -/
def RuntimeExecutionError : String := "RuntimeExecutionError"

/-- Modelled from the spec: the aggregate execution-state phase returned by
the external recursive node executor (`executors.NodePhase`, not under
`src/`). The spec classifies the aggregate result into exactly one of
Failed, Complete, PartiallyComplete, Running (default). -/
inductive ExecNodePhase
  | running
  | partiallyComplete
  | complete
  | failed
deriving DecidableEq, Repr

/-- Modelled from the spec: `executors.NodeStatus` (not under `src/`), the
aggregate result of one recursive pass: a phase plus an optional error. -/
structure ExecNodeStatus where
  nodePhase : ExecNodePhase
  err : Option ExecutionError
deriving DecidableEq, Repr

/-- `executors.NodeStatus.HasFailed`: the aggregate phase is Failed. -/
def ExecNodeStatus.hasFailed (s : ExecNodeStatus) : Bool :=
  s.nodePhase == ExecNodePhase.failed

/-- `executors.NodeStatus.IsComplete`: the aggregate phase is Complete. -/
def ExecNodeStatus.isComplete (s : ExecNodeStatus) : Bool :=
  s.nodePhase == ExecNodePhase.complete

/-- `executors.NodeStatus.PartiallyComplete`: the aggregate phase is
PartiallyComplete. -/
def ExecNodeStatus.partiallyComplete (s : ExecNodeStatus) : Bool :=
  s.nodePhase == ExecNodePhase.partiallyComplete

/-- Modelled from the `v1alpha1` package (not under `src/`): the workflow
node phase stored in a persisted `WorkflowNodeState` record. -/
inductive WorkflowNodePhase
  | undefined
  | executing
  | failing
deriving DecidableEq, Repr

/-- `handler.WorkflowNodeState`: the persisted `{Phase, Error}` record. -/
structure WorkflowNodeState where
  phase : WorkflowNodePhase
  error : Option ExecutionError
deriving DecidableEq, Repr

/-- `handler.OutputInfo`: reference to the URI of the node's outputs. -/
structure OutputInfo where
  outputURI : String
deriving DecidableEq, Repr

/-- `handler.ExecutionInfo`: carries the optional output information. -/
structure ExecutionInfo where
  outputInfo : Option OutputInfo
deriving DecidableEq, Repr

/-- Modelled from the `handler` package (not under `src/`): the phase tag
of a `handler.PhaseInfo`. Only the constructors used by this handler are
needed. -/
inductive EPhase
  | undefined
  | running
  | success
  | failed
  | failing
deriving DecidableEq, Repr

/-- `handler.PhaseInfo`: a phase decision with optional error and
execution info. -/
structure PhaseInfo where
  phase : EPhase
  err : Option ExecutionError
  info : Option ExecutionInfo
deriving DecidableEq, Repr

/-- `handler.PhaseInfoUndefined`: no phase decision was made. -/
def PhaseInfoUndefined : PhaseInfo :=
  { phase := EPhase.undefined, err := none, info := none }

/-- `handler.PhaseInfoRunning`. -/
def PhaseInfoRunning (i : Option ExecutionInfo) : PhaseInfo :=
  { phase := EPhase.running, err := none, info := i }

/-- `handler.PhaseInfoSuccess`. -/
def PhaseInfoSuccess (i : Option ExecutionInfo) : PhaseInfo :=
  { phase := EPhase.success, err := none, info := i }

/-- `handler.PhaseInfoFailureErr`: terminal failure with a prebuilt error. -/
def PhaseInfoFailureErr (e : Option ExecutionError) (i : Option ExecutionInfo) : PhaseInfo :=
  { phase := EPhase.failed, err := e, info := i }

/-- `handler.PhaseInfoFailingErr`: failing (failure handling pending) with
a prebuilt error. -/
def PhaseInfoFailingErr (e : Option ExecutionError) (i : Option ExecutionInfo) : PhaseInfo :=
  { phase := EPhase.failing, err := e, info := i }

/-- `handler.PhaseInfoFailure`: terminal failure built from a kind, a code
and a message. -/
def PhaseInfoFailure (kind : ErrorKind) (code : String) (msg : String)
    (i : Option ExecutionInfo) : PhaseInfo :=
  { phase := EPhase.failed, err := some { kind := kind, code := code, message := msg }, info := i }

/-- `handler.TransitionType`. -/
inductive TransitionType
  | ephemeral
  | barrier
deriving DecidableEq, Repr

/-- `handler.Transition`: the result object handed back to the enclosing
node's state machine. -/
structure Transition where
  ttype : TransitionType
  phaseInfo : PhaseInfo
deriving DecidableEq, Repr

/-- `handler.DoTransition`. -/
def DoTransition (t : TransitionType) (p : PhaseInfo) : Transition :=
  { ttype := t, phaseInfo := p }

/-- `handler.UnknownTransition`: the distinguished transition returned when
no phase decision could be made. -/
def UnknownTransition : Transition :=
  DoTransition TransitionType.ephemeral PhaseInfoUndefined

/-- A node definition of the sub-workflow graph (`v1alpha1.ExecutableNode`
restricted to what the handler reads: its ID). -/
structure NodeDef where
  id : NodeID
deriving DecidableEq, Repr

/-- `v1alpha1.ExecutableSubWorkflow` restricted to what the handler reads:
start node, optional failure-handling node, output bindings (only their
count matters to the handler) and the declared nodes. -/
structure SubWorkflowDef where
  startNode : NodeDef
  onFailureNode : Option NodeDef
  outputBindings : List String
  nodes : List NodeDef
deriving DecidableEq, Repr

/-- `v1alpha1.EndNodeID`. -/
def EndNodeID : NodeID := "end-node"

/-- `v1alpha1.GetOutputsFile`: the outputs file inside an output
directory. -/
def GetOutputsFile (outputDir : String) : String :=
  outputDir ++ "/outputs.pb"

/-- The status of the sub-workflow's end node as read through the
NodeLookup: the handler only reads its output directory. -/
structure EndNodeStatusView where
  outputDir : String
deriving DecidableEq, Repr

/-- One collaborator invocation performed by the handler, recorded in
order of occurrence. -/
inductive Event
  | inputRead
  | setInputsForStartNode
  | recursiveHandle (startNode : NodeID)
  | putWorkflowNodeState (s : WorkflowNodeState)
  | getEndNodeStatus
  | headCall (path : String)
  | copyRaw (src : String) (dst : String)
  | enqueueOwner
  | abortHandler (startNode : NodeID) (reason : String)
deriving DecidableEq, Repr

/-- The environment of collaborator outcomes for one reconciliation tick:
every field is the (pure) result the corresponding external call would
produce during this tick. -/
structure Env where
  /-- The sub-workflow ID dereferenced from the enclosing node's
  `WorkflowNode.SubWorkflowRef`. -/
  subID : String
  /-- `ExecutionContext.FindSubWorkflow`. -/
  subWorkflows : String → Option SubWorkflowDef
  /-- `nCtx.InputReader().Get`. -/
  inputRead : Except GoError Unit
  /-- `nodeExecutor.SetInputsForStartNode`: error or start status. -/
  setInputsResult : Except GoError ExecNodeStatus
  /-- `nodeExecutor.RecursiveNodeHandler`, keyed by the starting node ID. -/
  recursiveResult : NodeID → Except GoError ExecNodeStatus
  /-- `nCtx.NodeStateWriter().PutWorkflowNodeState`. -/
  putStateResult : Option GoError
  /-- `nl.GetNodeExecutionStatus(ctx, v1alpha1.EndNodeID)`: error, or the
  possibly-nil end node status. -/
  endNodeStatus : Except GoError (Option EndNodeStatusView)
  /-- `nCtx.DataStore().Head(path)`: error, or whether the artifact
  exists. -/
  headResult : String → Except GoError Bool
  /-- `store.CopyRaw(src, dst, opts)`. -/
  copyResult : String → String → Option GoError
  /-- `nCtx.EnqueueOwnerFunc()()`. -/
  enqueueResult : Option GoError
  /-- `nCtx.NodeStatus().GetOutputDir()`. -/
  nodeOutputDir : String
  /-- `nCtx.NodeStateReader().GetWorkflowNodeState()`. -/
  persistedState : WorkflowNodeState
  /-- `nCtx.CurrentAttempt()`. -/
  currentAttempt : Nat
  /-- `nodeExecutor.AbortHandler`. -/
  abortResult : Option GoError

/-- The outcome of one handler invocation: the returned transition, the
returned Go error, and the trace of collaborator invocations. -/
structure Outcome where
  transition : Transition
  goErr : Option GoError
  trace : List Event
deriving DecidableEq, Repr

/-- `subworkflowHandler.handleSubWorkflow` (subworkflow.go:59-124): calls
the recursive node executor on the sub-workflow starting at its start
node and translates the aggregate result into a transition, persisting a
Failing record on failure, propagating outputs on completion and
re-enqueueing on partial completion. -/
def handleSubWorkflow (env : Env) (sw : SubWorkflowDef) : Outcome :=
  let ev0 := [Event.recursiveHandle sw.startNode.id]
  match env.recursiveResult sw.startNode.id with
  | Except.error e =>
      { transition := DoTransition TransitionType.ephemeral PhaseInfoUndefined
        goErr := some e, trace := ev0 }
  | Except.ok state =>
    if state.hasFailed then
      let workflowNodeState : WorkflowNodeState :=
        { phase := WorkflowNodePhase.failing, error := state.err }
      let err := env.putStateResult
      let ev := ev0 ++ [Event.putWorkflowNodeState workflowNodeState]
      if sw.onFailureNode.isSome then
        { transition := DoTransition TransitionType.ephemeral (PhaseInfoFailingErr state.err none)
          goErr := err, trace := ev }
      else
        { transition := DoTransition TransitionType.ephemeral (PhaseInfoFailureErr state.err none)
          goErr := err, trace := ev }
    else if state.isComplete then
      if 0 < sw.outputBindings.length then
        match env.endNodeStatus with
        | Except.error e =>
            { transition := UnknownTransition, goErr := some e
              trace := ev0 ++ [Event.getEndNodeStatus] }
        | Except.ok none =>
            { transition := DoTransition TransitionType.ephemeral
                (PhaseInfoFailure ErrorKind.system SubWorkflowExecutionFailed
                  "No end node found in subworkflow." none)
              goErr := none, trace := ev0 ++ [Event.getEndNodeStatus] }
        | Except.ok (some endNodeStatus) =>
          let sourcePath := GetOutputsFile endNodeStatus.outputDir
          let ev1 := ev0 ++ [Event.getEndNodeStatus, Event.headCall sourcePath]
          match env.headResult sourcePath with
          | Except.error _ =>
              { transition := DoTransition TransitionType.ephemeral PhaseInfoUndefined
                goErr := none, trace := ev1 }
          | Except.ok artifactPresent =>
            if !artifactPresent then
              { transition := DoTransition TransitionType.ephemeral
                  (PhaseInfoFailure ErrorKind.system SubWorkflowExecutionFailed
                    ("Subworkflow is expected to produce outputs but no outputs file was written to "
                      ++ sourcePath ++ ".") none)
                goErr := none, trace := ev1 }
            else
              let destinationPath := GetOutputsFile env.nodeOutputDir
              let ev2 := ev1 ++ [Event.copyRaw sourcePath destinationPath]
              match env.copyResult sourcePath destinationPath with
              | some _ =>
                  { transition := DoTransition TransitionType.ephemeral
                      (PhaseInfoFailure ErrorKind.system SubWorkflowExecutionFailed
                        ("Failed to copy subworkflow outputs from [" ++ sourcePath
                          ++ "] to [" ++ destinationPath ++ "]") none)
                    goErr := none, trace := ev2 }
              | none =>
                  { transition := DoTransition TransitionType.ephemeral
                      (PhaseInfoSuccess (some { outputInfo := some { outputURI := destinationPath } }))
                    goErr := none, trace := ev2 }
      else
        { transition := DoTransition TransitionType.ephemeral
            (PhaseInfoSuccess (some { outputInfo := none }))
          goErr := none, trace := ev0 }
    else if state.partiallyComplete then
      match env.enqueueResult with
      | some e =>
          { transition := UnknownTransition, goErr := some e
            trace := ev0 ++ [Event.enqueueOwner] }
      | none =>
          { transition := DoTransition TransitionType.ephemeral (PhaseInfoRunning none)
            goErr := none, trace := ev0 ++ [Event.enqueueOwner] }
    else
      { transition := DoTransition TransitionType.ephemeral (PhaseInfoRunning none)
        goErr := none, trace := ev0 }

/-- `subworkflowHandler.HandleFailureNodeOfSubWorkflow`
(subworkflow.go:126-162): recovers the original error from the persisted
WorkflowNodeState and, when a failure-handling node is configured, drives
it through the recursive node executor, translating its result; a
successful or partially-complete failure node preserves the original
error, a failed failure node masks the original error with its own. -/
def HandleFailureNodeOfSubWorkflow (env : Env) (sw : SubWorkflowDef) : Outcome :=
  let originalError := env.persistedState.error
  match sw.onFailureNode with
  | some failureNode =>
    let ev0 := [Event.recursiveHandle failureNode.id]
    match env.recursiveResult failureNode.id with
    | Except.error e =>
        { transition := DoTransition TransitionType.ephemeral PhaseInfoUndefined
          goErr := some e, trace := ev0 }
    | Except.ok state =>
      if state.nodePhase == ExecNodePhase.running then
        { transition := DoTransition TransitionType.ephemeral (PhaseInfoRunning none)
          goErr := none, trace := ev0 }
      else if state.hasFailed then
        { transition := DoTransition TransitionType.ephemeral (PhaseInfoFailureErr state.err none)
          goErr := none, trace := ev0 }
      else if state.partiallyComplete then
        match env.enqueueResult with
        | some e =>
            { transition := UnknownTransition, goErr := some e
              trace := ev0 ++ [Event.enqueueOwner] }
        | none =>
            { transition := DoTransition TransitionType.ephemeral
                (PhaseInfoFailingErr originalError none)
              goErr := none, trace := ev0 ++ [Event.enqueueOwner] }
      else if state.isComplete then
        { transition := DoTransition TransitionType.ephemeral
            (PhaseInfoFailureErr originalError none)
          goErr := none, trace := ev0 }
      else
        { transition := DoTransition TransitionType.ephemeral
            (PhaseInfoFailureErr originalError none)
          goErr := none, trace := ev0 }
  | none =>
      { transition := DoTransition TransitionType.ephemeral
          (PhaseInfoFailureErr originalError none)
        goErr := none, trace := [] }

/-- `subworkflowHandler.startAndHandleSubWorkflow` (subworkflow.go:36-56):
reads the enclosing node's inputs, sets them on the sub-workflow's start
node, and on success defers to `handleSubWorkflow`. -/
def startAndHandleSubWorkflow (env : Env) (sw : SubWorkflowDef) : Outcome :=
  match env.inputRead with
  | Except.error e =>
      { transition := DoTransition TransitionType.ephemeral
          (PhaseInfoFailure ErrorKind.system RuntimeExecutionError
            ("Failed to read input. Error [" ++ e ++ "]") none)
        goErr := none, trace := [Event.inputRead] }
  | Except.ok _ =>
    match env.setInputsResult with
    | Except.error e =>
        { transition := DoTransition TransitionType.ephemeral PhaseInfoUndefined
          goErr := some e, trace := [Event.inputRead, Event.setInputsForStartNode] }
    | Except.ok startStatus =>
      if startStatus.hasFailed then
        { transition := DoTransition TransitionType.ephemeral
            (PhaseInfoFailureErr startStatus.err none)
          goErr := none, trace := [Event.inputRead, Event.setInputsForStartNode] }
      else
        let r := handleSubWorkflow env sw
        { transition := r.transition, goErr := r.goErr
          trace := [Event.inputRead, Event.setInputsForStartNode] ++ r.trace }

/-- The persisted status entry of one child node of the sub-workflow, as
mutated by the NodeLookup factory (`v1alpha1.NodeStatus` restricted to the
fields the factory writes). -/
structure SubNodeStatus where
  uniqueNodeID : Option String
  uniqueParentNodeID : Option String
  parentAttempts : Option Nat
deriving DecidableEq, Repr

/-- The enclosing node's status (`nCtx.NodeStatus()`) restricted to what
the NodeLookup factory reads and writes: its own unique node ID and the
lazily-created child status entries (a map keyed by child node ID, as in
the Go `SubNodeStatus` map). -/
structure EnclosingNodeStatus where
  uniqueNodeID : String
  children : String → Option SubNodeStatus

/-- `NodeStatus.GetNodeExecutionStatus`: resolves (lazily creating) the
status entry of a child node. -/
def EnclosingNodeStatus.getChild (s : EnclosingNodeStatus) (id : String) : SubNodeStatus :=
  match s.children id with
  | some c => c
  | none => { uniqueNodeID := none, uniqueParentNodeID := none, parentAttempts := none }

/-- Writes back a child status entry under its node ID. -/
def EnclosingNodeStatus.setChild (s : EnclosingNodeStatus) (id : String)
    (c : SubNodeStatus) : EnclosingNodeStatus :=
  { s with children := fun j => if j = id then some c else s.children j }

/-- Modelled from the spec: `v1alpha1.ComputeUniqueIDForNode` (not under
`src/`) computes a unique child ID deterministically from the child node
ID, the parent's unique ID and the current attempt number, failing on an
ID-encoding length violation. -/
def ComputeUniqueIDForNode (childID : NodeID) (parentUniqueID : String)
    (attempt : String) : Except GoError String :=
  let newID := parentUniqueID ++ "-" ++ attempt ++ "-" ++ childID
  if newID.length > 63 then Except.error ("unique ID too long: " ++ newID)
  else Except.ok newID

/-- The loop body of `fetchNodeLookupForSubWorkflow` over the declared
nodes of the sub-workflow: for each node, compute its unique ID from the
captured parent unique ID and attempt string, and write back parent
linkage, unique ID and parent attempt. The modelled child record holds
exactly the three fields the loop writes, so the source's in-place
mutation of the resolved child status is a full rewrite of the record
here. -/
def fetchLoop (uniqueparentID : String) (currentAttemptStr : String)
    (currentAttempt : Nat) :
    List NodeDef → EnclosingNodeStatus → Except GoError EnclosingNodeStatus
  | [], status => Except.ok status
  | n :: rest, status =>
    match ComputeUniqueIDForNode n.id uniqueparentID currentAttemptStr with
    | Except.error e => Except.error e
    | Except.ok newID =>
      let updated : SubNodeStatus :=
        { uniqueNodeID := some newID
          uniqueParentNodeID := some status.uniqueNodeID
          parentAttempts := some currentAttempt }
      fetchLoop uniqueparentID currentAttemptStr currentAttempt rest
        (status.setChild n.id updated)

/-- `subworkflowHandler.fetchNodeLookupForSubWorkflow`
(subworkflow.go:181-202): assigns each declared child node of the
sub-workflow a unique node ID derived from the enclosing node's unique ID
and the current attempt, records the enclosing node as unique parent and
the attempt number, and returns the updated status (standing for the
NodeLookup built over it). -/
def fetchNodeLookupForSubWorkflow (status : EnclosingNodeStatus)
    (sw : SubWorkflowDef) (currentAttempt : Nat) :
    Except GoError EnclosingNodeStatus :=
  let uniqueparentID := status.uniqueNodeID
  let currentAttemptStr := toString currentAttempt
  fetchLoop uniqueparentID currentAttemptStr currentAttempt sw.nodes status

/-- `GetSubWorkflow` (subworkflow.go:25-33): dereferences the enclosing
node's sub-workflow reference in the execution context. -/
def GetSubWorkflow (env : Env) : Except GoError SubWorkflowDef :=
  match env.subWorkflows env.subID with
  | none => Except.error ("failed to find sub workflow with ID [" ++ env.subID ++ "]")
  | some sw => Except.ok sw

/-- `subworkflowHandler.StartSubWorkflow` (subworkflow.go:204-216):
resolves the sub-workflow, builds the node lookup, then starts and handles
the sub-workflow. -/
def StartSubWorkflow (env : Env) (status : EnclosingNodeStatus) : Outcome :=
  match GetSubWorkflow env with
  | Except.error e =>
      { transition := DoTransition TransitionType.ephemeral
          (PhaseInfoFailure ErrorKind.system SubWorkflowExecutionFailed e none)
        goErr := none, trace := [] }
  | Except.ok subWorkflow =>
    match fetchNodeLookupForSubWorkflow status subWorkflow env.currentAttempt with
    | Except.error e => { transition := UnknownTransition, goErr := some e, trace := [] }
    | Except.ok _ => startAndHandleSubWorkflow env subWorkflow

/-- `subworkflowHandler.CheckSubWorkflowStatus` (subworkflow.go:218-229):
resolves the sub-workflow, builds the node lookup, then starts and handles
the sub-workflow (the source calls `startAndHandleSubWorkflow` here too). -/
def CheckSubWorkflowStatus (env : Env) (status : EnclosingNodeStatus) : Outcome :=
  match GetSubWorkflow env with
  | Except.error e =>
      { transition := DoTransition TransitionType.ephemeral
          (PhaseInfoFailure ErrorKind.system SubWorkflowExecutionFailed e none)
        goErr := none, trace := [] }
  | Except.ok subWorkflow =>
    match fetchNodeLookupForSubWorkflow status subWorkflow env.currentAttempt with
    | Except.error e => { transition := UnknownTransition, goErr := some e, trace := [] }
    | Except.ok _ => startAndHandleSubWorkflow env subWorkflow

/-- The outcome of an abort invocation: the returned Go error and the
trace of collaborator invocations. -/
structure AbortOutcome where
  goErr : Option GoError
  trace : List Event
deriving DecidableEq, Repr

/-- `subworkflowHandler.HandleAbort` (subworkflow.go:231-239): resolves
the sub-workflow and forwards the abort into the recursive executor's
abort capability starting at the sub-workflow's start node, returning
whatever error that produces. -/
def HandleAbort (env : Env) (reason : String) : AbortOutcome :=
  match GetSubWorkflow env with
  | Except.error e => { goErr := some e, trace := [] }
  | Except.ok subWorkflow =>
      { goErr := env.abortResult
        trace := [Event.abortHandler subWorkflow.startNode.id reason] }

/-! Concrete fixtures used by witnesses and counterexamples. -/

/-- A child node of the example sub-workflow. -/
def nodeA : NodeDef := { id := "a" }

/-- The designated failure-handling node of the example sub-workflow. -/
def nodeF : NodeDef := { id := "f" }

/-- Example sub-workflow with no failure node and no output bindings. -/
def swPlain : SubWorkflowDef :=
  { startNode := { id := "start-node" }, onFailureNode := none
    outputBindings := [], nodes := [nodeA] }

/-- Example sub-workflow declaring one output binding. -/
def swOutputs : SubWorkflowDef :=
  { startNode := { id := "start-node" }, onFailureNode := none
    outputBindings := ["out"], nodes := [nodeA] }

/-- Example sub-workflow with a configured failure-handling node. -/
def swFailureNode : SubWorkflowDef :=
  { startNode := { id := "start-node" }, onFailureNode := some nodeF
    outputBindings := [], nodes := [nodeA] }

/-- The original failure error of the example sub-workflow. -/
def errE1 : ExecutionError :=
  { kind := ErrorKind.user, code := "E1", message := "original failure" }

/-- The example failure-handling node's own error. -/
def errE2 : ExecutionError :=
  { kind := ErrorKind.user, code := "E2", message := "failure handler failed" }

/-- A baseline environment in which every collaborator call succeeds. -/
def baseEnv : Env :=
  { subID := "sw1"
    subWorkflows := fun _ => some swPlain
    inputRead := Except.ok ()
    setInputsResult := Except.ok { nodePhase := ExecNodePhase.complete, err := none }
    recursiveResult := fun _ => Except.ok { nodePhase := ExecNodePhase.running, err := none }
    putStateResult := none
    endNodeStatus := Except.ok (some { outputDir := "sub/end" })
    headResult := fun _ => Except.ok true
    copyResult := fun _ _ => none
    enqueueResult := none
    nodeOutputDir := "node/out"
    persistedState := { phase := WorkflowNodePhase.failing, error := some errE1 }
    currentAttempt := 0
    abortResult := none }

/-! Claim theorems. -/

/-- A complete aggregate status with no error. -/
def stCompleteOk : ExecNodeStatus :=
  { nodePhase := ExecNodePhase.complete, err := none }

/-- A complete aggregate status carrying the failure handler's error. -/
def stCompleteE2 : ExecNodeStatus :=
  { nodePhase := ExecNodePhase.complete, err := some errE2 }

/-- A failed aggregate status carrying the original error. -/
def stFailedE1 : ExecNodeStatus :=
  { nodePhase := ExecNodePhase.failed, err := some errE1 }

/-- A failed aggregate status carrying the failure handler's error. -/
def stFailedE2 : ExecNodeStatus :=
  { nodePhase := ExecNodePhase.failed, err := some errE2 }

/-- A partially-complete aggregate status. -/
def stPartial : ExecNodeStatus :=
  { nodePhase := ExecNodePhase.partiallyComplete, err := none }

/-- The baseline environment with the recursive executor returning the
given aggregate status for every starting node. -/
def envRec (st : ExecNodeStatus) : Env :=
  { baseEnv with recursiveResult := fun _ => Except.ok st }

/-! Claim theorems. -/

/-- C1: In `HandleFailureNodeOfSubWorkflow`, with a failure-handling node
configured and the persisted original error E1: a Complete failure-node
result yields a Failed transition carrying E1, a PartiallyComplete result
yields a Failing transition carrying E1, and a Failed failure-node result
yields a Failed transition carrying the failure node's own error, not E1. -/
theorem C1_failure_node_masking (env : Env) (sw : SubWorkflowDef) (f : NodeDef)
    (state : ExecNodeStatus)
    (hof : sw.onFailureNode = some f)
    (hrec : env.recursiveResult f.id = Except.ok state)
    (henq : env.enqueueResult = none) :
    (state.nodePhase = ExecNodePhase.complete →
      (HandleFailureNodeOfSubWorkflow env sw).transition =
        DoTransition TransitionType.ephemeral
          (PhaseInfoFailureErr env.persistedState.error none)) ∧
    (state.nodePhase = ExecNodePhase.partiallyComplete →
      (HandleFailureNodeOfSubWorkflow env sw).transition =
        DoTransition TransitionType.ephemeral
          (PhaseInfoFailingErr env.persistedState.error none)) ∧
    (state.nodePhase = ExecNodePhase.failed →
      (HandleFailureNodeOfSubWorkflow env sw).transition =
        DoTransition TransitionType.ephemeral
          (PhaseInfoFailureErr state.err none)) := by
  refine ⟨fun hp => ?_, fun hp => ?_, fun hp => ?_⟩ <;>
    simp [HandleFailureNodeOfSubWorkflow, hof, hrec, hp, henq,
      ExecNodeStatus.hasFailed, ExecNodeStatus.isComplete,
      ExecNodeStatus.partiallyComplete]

/-- Witness for C1 at a concrete environment whose failure node completes. -/
theorem C1_failure_node_masking_witness :
    (swFailureNode.onFailureNode = some nodeF ∧
      (envRec stCompleteE2).recursiveResult nodeF.id = Except.ok stCompleteE2 ∧
      (envRec stCompleteE2).enqueueResult = none) ∧
    (stCompleteE2.nodePhase = ExecNodePhase.complete →
      (HandleFailureNodeOfSubWorkflow (envRec stCompleteE2) swFailureNode).transition =
        DoTransition TransitionType.ephemeral
          (PhaseInfoFailureErr (envRec stCompleteE2).persistedState.error none)) :=
  ⟨⟨rfl, rfl, rfl⟩,
    (C1_failure_node_masking (envRec stCompleteE2) swFailureNode nodeF
      stCompleteE2 rfl rfl rfl).1⟩

/-- C2: on a Failed aggregate result with error E, `handleSubWorkflow`
persists a WorkflowNodeState record with phase Failing and error E via the
node state writer, and returns a Failing transition carrying E when a
failure-handling node is configured, else a Failed transition carrying E. -/
theorem C2_failed_persists_state (env : Env) (sw : SubWorkflowDef)
    (state : ExecNodeStatus)
    (hrec : env.recursiveResult sw.startNode.id = Except.ok state)
    (hfail : state.nodePhase = ExecNodePhase.failed) :
    Event.putWorkflowNodeState
        { phase := WorkflowNodePhase.failing, error := state.err } ∈
      (handleSubWorkflow env sw).trace ∧
    (sw.onFailureNode.isSome →
      (handleSubWorkflow env sw).transition =
        DoTransition TransitionType.ephemeral (PhaseInfoFailingErr state.err none)) ∧
    (sw.onFailureNode = none →
      (handleSubWorkflow env sw).transition =
        DoTransition TransitionType.ephemeral (PhaseInfoFailureErr state.err none)) := by
  refine ⟨?_, fun hf => ?_, fun hf => ?_⟩
  · by_cases hf : sw.onFailureNode.isSome <;>
      simp [handleSubWorkflow, hrec, ExecNodeStatus.hasFailed, hfail, hf]
  · simp [handleSubWorkflow, hrec, ExecNodeStatus.hasFailed, hfail, hf]
  · simp [handleSubWorkflow, hrec, ExecNodeStatus.hasFailed, hfail, hf]

/-- Witness for C2 at a concrete environment whose sub-workflow fails. -/
theorem C2_failed_persists_state_witness :
    ((envRec stFailedE1).recursiveResult swPlain.startNode.id =
        Except.ok stFailedE1 ∧
      stFailedE1.nodePhase = ExecNodePhase.failed) ∧
    Event.putWorkflowNodeState
        { phase := WorkflowNodePhase.failing, error := some errE1 } ∈
      (handleSubWorkflow (envRec stFailedE1) swPlain).trace :=
  ⟨⟨rfl, rfl⟩, (C2_failed_persists_state (envRec stFailedE1) swPlain
    stFailedE1 rfl rfl).1⟩

/-- C3: on a Complete aggregate result with empty output bindings,
`handleSubWorkflow` performs no end-node status lookup, no head check and
no copy, and returns a Succeeded transition whose ExecutionInfo carries no
OutputInfo. -/
theorem C3_complete_no_output_bindings (env : Env) (sw : SubWorkflowDef)
    (state : ExecNodeStatus)
    (hrec : env.recursiveResult sw.startNode.id = Except.ok state)
    (hcomp : state.nodePhase = ExecNodePhase.complete)
    (hb : sw.outputBindings = []) :
    (handleSubWorkflow env sw).transition =
      DoTransition TransitionType.ephemeral
        (PhaseInfoSuccess (some { outputInfo := none })) ∧
    (handleSubWorkflow env sw).goErr = none ∧
    (handleSubWorkflow env sw).trace = [Event.recursiveHandle sw.startNode.id] ∧
    Event.getEndNodeStatus ∉ (handleSubWorkflow env sw).trace ∧
    (∀ p, Event.headCall p ∉ (handleSubWorkflow env sw).trace) ∧
    (∀ a b, Event.copyRaw a b ∉ (handleSubWorkflow env sw).trace) := by
  simp [handleSubWorkflow, hrec, hcomp, hb,
    ExecNodeStatus.hasFailed, ExecNodeStatus.isComplete]

/-- Witness for C3 at a concrete environment whose sub-workflow completes
with no declared output bindings. -/
theorem C3_complete_no_output_bindings_witness :
    ((envRec stCompleteOk).recursiveResult swPlain.startNode.id =
        Except.ok stCompleteOk ∧
      stCompleteOk.nodePhase = ExecNodePhase.complete ∧
      swPlain.outputBindings = []) ∧
    (handleSubWorkflow (envRec stCompleteOk) swPlain).transition =
      DoTransition TransitionType.ephemeral
        (PhaseInfoSuccess (some { outputInfo := none })) :=
  ⟨⟨rfl, rfl, rfl⟩, (C3_complete_no_output_bindings (envRec stCompleteOk)
    swPlain stCompleteOk rfl rfl rfl).1⟩

/-- C4: on a Complete aggregate result with declared output bindings,
when the head check on the end node's outputs file succeeds but the
artifact does not exist, `handleSubWorkflow` returns a terminal Failed
transition (never Running, never the unknown transition) whose message
references the missing outputs file, and performs no copy. -/
theorem C4_absent_outputs_terminal_failure (env : Env) (sw : SubWorkflowDef)
    (state : ExecNodeStatus) (endSt : EndNodeStatusView)
    (hrec : env.recursiveResult sw.startNode.id = Except.ok state)
    (hcomp : state.nodePhase = ExecNodePhase.complete)
    (hb : 0 < sw.outputBindings.length)
    (hend : env.endNodeStatus = Except.ok (some endSt))
    (hhead : env.headResult (GetOutputsFile endSt.outputDir) = Except.ok false) :
    (handleSubWorkflow env sw).transition =
      DoTransition TransitionType.ephemeral
        (PhaseInfoFailure ErrorKind.system SubWorkflowExecutionFailed
          ("Subworkflow is expected to produce outputs but no outputs file was written to "
            ++ GetOutputsFile endSt.outputDir ++ ".") none) ∧
    (handleSubWorkflow env sw).transition.phaseInfo.phase = EPhase.failed ∧
    (handleSubWorkflow env sw).transition ≠ UnknownTransition ∧
    (handleSubWorkflow env sw).transition.phaseInfo.phase ≠ EPhase.running ∧
    (∃ pre post,
      Option.map ExecutionError.message (handleSubWorkflow env sw).transition.phaseInfo.err =
        some (pre ++ GetOutputsFile endSt.outputDir ++ post)) ∧
    (∀ a b, Event.copyRaw a b ∉ (handleSubWorkflow env sw).trace) := by
  have hres :
      (handleSubWorkflow env sw).transition =
        DoTransition TransitionType.ephemeral
          (PhaseInfoFailure ErrorKind.system SubWorkflowExecutionFailed
            ("Subworkflow is expected to produce outputs but no outputs file was written to "
              ++ GetOutputsFile endSt.outputDir ++ ".") none) ∧
      (∀ a b, Event.copyRaw a b ∉ (handleSubWorkflow env sw).trace) := by
    simp [handleSubWorkflow, hrec, hcomp, hb, hend, hhead,
      ExecNodeStatus.hasFailed, ExecNodeStatus.isComplete]
  refine ⟨hres.1, ?_, ?_, ?_, ?_, hres.2⟩ <;>
    simp [hres.1, DoTransition, PhaseInfoFailure, UnknownTransition, PhaseInfoUndefined]
  exact ⟨"Subworkflow is expected to produce outputs but no outputs file was written to ",
    ".", rfl⟩

/-- The environment used for the C4 witness: complete aggregate state,
declared outputs, end node present, but its outputs file absent. -/
def envC4 : Env :=
  { baseEnv with
    recursiveResult := fun _ => Except.ok stCompleteOk
    headResult := fun _ => Except.ok false }

/-- Witness for C4 at a concrete environment with an absent outputs
artifact. -/
theorem C4_absent_outputs_terminal_failure_witness :
    (envC4.recursiveResult swOutputs.startNode.id = Except.ok stCompleteOk ∧
      stCompleteOk.nodePhase = ExecNodePhase.complete ∧
      0 < swOutputs.outputBindings.length ∧
      envC4.endNodeStatus = Except.ok (some { outputDir := "sub/end" }) ∧
      envC4.headResult (GetOutputsFile "sub/end") = Except.ok false) ∧
    (handleSubWorkflow envC4 swOutputs).transition.phaseInfo.phase = EPhase.failed :=
  ⟨⟨rfl, rfl, by decide, rfl, rfl⟩,
    (C4_absent_outputs_terminal_failure envC4 swOutputs stCompleteOk
      { outputDir := "sub/end" } rfl rfl (by decide) rfl rfl).2.1⟩

/-- The environment used against C5: complete aggregate state with
declared outputs, but the store's head call itself fails. -/
def envC5 : Env :=
  { baseEnv with
    recursiveResult := fun _ => Except.ok stCompleteOk
    headResult := fun _ => Except.error "storage head failed" }

/-- C5 counterexample: when the head call on the end node's outputs file
returns an error, `handleSubWorkflow` returns the undefined-phase
transition paired with a nil Go error — the store error is dropped,
refuting the claim that the raw store error is returned alongside the
transition. -/
theorem C5_head_error_dropped_counterexample :
    envC5.headResult (GetOutputsFile "sub/end") = Except.error "storage head failed" ∧
    (handleSubWorkflow envC5 swOutputs).transition =
      DoTransition TransitionType.ephemeral PhaseInfoUndefined ∧
    (handleSubWorkflow envC5 swOutputs).goErr = none ∧
    (handleSubWorkflow envC5 swOutputs).goErr ≠ some "storage head failed" := by
  refine ⟨rfl, rfl, rfl, ?_⟩
  simp [handleSubWorkflow, envC5, baseEnv, swOutputs, stCompleteOk,
    ExecNodeStatus.hasFailed, ExecNodeStatus.isComplete]

/-- C5 amended: when the aggregate result is Complete, output bindings are
non-empty and the head call itself errors, `handleSubWorkflow` returns the
unknown (undefined-phase) transition paired with a nil Go error; the store
error is silently dropped. -/
theorem C5_head_error_amended (env : Env) (sw : SubWorkflowDef)
    (state : ExecNodeStatus) (endSt : EndNodeStatusView) (e : GoError)
    (hrec : env.recursiveResult sw.startNode.id = Except.ok state)
    (hcomp : state.nodePhase = ExecNodePhase.complete)
    (hb : 0 < sw.outputBindings.length)
    (hend : env.endNodeStatus = Except.ok (some endSt))
    (hhead : env.headResult (GetOutputsFile endSt.outputDir) = Except.error e) :
    (handleSubWorkflow env sw).transition =
      DoTransition TransitionType.ephemeral PhaseInfoUndefined ∧
    (handleSubWorkflow env sw).goErr = none := by
  simp [handleSubWorkflow, hrec, hcomp, hb, hend, hhead,
    ExecNodeStatus.hasFailed, ExecNodeStatus.isComplete]

/-- Witness for the amended C5 at the concrete failing-head environment. -/
theorem C5_head_error_amended_witness :
    (envC5.recursiveResult swOutputs.startNode.id = Except.ok stCompleteOk ∧
      stCompleteOk.nodePhase = ExecNodePhase.complete ∧
      0 < swOutputs.outputBindings.length ∧
      envC5.endNodeStatus = Except.ok (some { outputDir := "sub/end" }) ∧
      envC5.headResult (GetOutputsFile "sub/end") =
        Except.error "storage head failed") ∧
    (handleSubWorkflow envC5 swOutputs).goErr = none :=
  ⟨⟨rfl, rfl, by decide, rfl, rfl⟩,
    (C5_head_error_amended envC5 swOutputs stCompleteOk
      { outputDir := "sub/end" } "storage head failed" rfl rfl (by decide) rfl rfl).2⟩

/-- C6: on a PartiallyComplete aggregate result, `handleSubWorkflow`
invokes the re-enqueue callback exactly once and returns a Running
transition for the tick (never Succeeded or Failed); when the re-enqueue
callback errors, the result is the unknown transition paired with that
error. -/
theorem C6_partially_complete_reenqueue (env : Env) (sw : SubWorkflowDef)
    (state : ExecNodeStatus)
    (hrec : env.recursiveResult sw.startNode.id = Except.ok state)
    (hp : state.nodePhase = ExecNodePhase.partiallyComplete) :
    (handleSubWorkflow env sw).trace.count Event.enqueueOwner = 1 ∧
    (env.enqueueResult = none →
      (handleSubWorkflow env sw).transition =
        DoTransition TransitionType.ephemeral (PhaseInfoRunning none) ∧
      (handleSubWorkflow env sw).goErr = none) ∧
    (∀ e, env.enqueueResult = some e →
      (handleSubWorkflow env sw).transition = UnknownTransition ∧
      (handleSubWorkflow env sw).goErr = some e) ∧
    (handleSubWorkflow env sw).transition.phaseInfo.phase ≠ EPhase.success ∧
    (handleSubWorkflow env sw).transition.phaseInfo.phase ≠ EPhase.failed := by
  cases henq : env.enqueueResult <;>
    simp [handleSubWorkflow, hrec, hp, henq,
      ExecNodeStatus.hasFailed, ExecNodeStatus.isComplete,
      ExecNodeStatus.partiallyComplete, UnknownTransition, PhaseInfoUndefined,
      PhaseInfoRunning, DoTransition, List.count_cons]

/-- Witness for C6 at a concrete partially-complete environment. -/
theorem C6_partially_complete_reenqueue_witness :
    ((envRec stPartial).recursiveResult swPlain.startNode.id =
        Except.ok stPartial ∧
      stPartial.nodePhase = ExecNodePhase.partiallyComplete) ∧
    (handleSubWorkflow (envRec stPartial) swPlain).trace.count
      Event.enqueueOwner = 1 :=
  ⟨⟨rfl, rfl⟩, (C6_partially_complete_reenqueue (envRec stPartial) swPlain
    stPartial rfl rfl).1⟩

/-- In every branch, the trace of `handleSubWorkflow` begins with the
recursive-handler invocation on the sub-workflow's start node. -/
theorem handleSubWorkflow_trace_head (env : Env) (sw : SubWorkflowDef) :
    ∃ rest, (handleSubWorkflow env sw).trace =
      Event.recursiveHandle sw.startNode.id :: rest := by
  simp only [handleSubWorkflow]
  repeat' split
  all_goals simp

/-- An enclosing node status with no child entries yet. -/
def statusFresh : EnclosingNodeStatus :=
  { uniqueNodeID := "n0", children := fun _ => none }

/-- C7 counterexample: at a concrete environment where resolution, lookup
construction, input reading and input setting all succeed,
`CheckSubWorkflowStatus` does invoke input reading and
`SetInputsForStartNode` before driving execution, refuting the claim that
only `StartSubWorkflow` seeds inputs. -/
theorem C7_check_status_seeds_inputs_counterexample :
    (CheckSubWorkflowStatus baseEnv statusFresh).trace =
      [Event.inputRead, Event.setInputsForStartNode,
        Event.recursiveHandle "start-node"] ∧
    Event.inputRead ∈ (CheckSubWorkflowStatus baseEnv statusFresh).trace ∧
    Event.setInputsForStartNode ∈ (CheckSubWorkflowStatus baseEnv statusFresh).trace := by
  have h : (CheckSubWorkflowStatus baseEnv statusFresh).trace =
      [Event.inputRead, Event.setInputsForStartNode,
        Event.recursiveHandle "start-node"] := rfl
  refine ⟨h, ?_, ?_⟩ <;> rw [h] <;> simp

/-- C7 amended: input seeding runs on both reconciliation entry points:
when resolution and lookup construction succeed and input reading and
input setting succeed with a non-failed start status, both
`StartSubWorkflow` and `CheckSubWorkflowStatus` read the enclosing node's
inputs and set them on the start node before invoking the recursive
execution driver. -/
theorem C7_both_entry_points_seed_inputs (env : Env)
    (status st : EnclosingNodeStatus) (sw : SubWorkflowDef) (ss : ExecNodeStatus)
    (hfind : env.subWorkflows env.subID = some sw)
    (hfetch : fetchNodeLookupForSubWorkflow status sw env.currentAttempt =
      Except.ok st)
    (hinput : env.inputRead = Except.ok ())
    (hset : env.setInputsResult = Except.ok ss)
    (hnf : ss.nodePhase ≠ ExecNodePhase.failed) :
    (∃ rest, (StartSubWorkflow env status).trace =
      Event.inputRead :: Event.setInputsForStartNode ::
        Event.recursiveHandle sw.startNode.id :: rest) ∧
    (∃ rest, (CheckSubWorkflowStatus env status).trace =
      Event.inputRead :: Event.setInputsForStartNode ::
        Event.recursiveHandle sw.startNode.id :: rest) := by
  obtain ⟨rest, hrest⟩ := handleSubWorkflow_trace_head env sw
  constructor <;> refine ⟨rest, ?_⟩ <;>
    simp [StartSubWorkflow, CheckSubWorkflowStatus, GetSubWorkflow, hfind,
      hfetch, startAndHandleSubWorkflow, hinput, hset,
      ExecNodeStatus.hasFailed, hnf, hrest]

/-- Witness for the amended C7 at the baseline environment. -/
theorem C7_both_entry_points_seed_inputs_witness :
    (baseEnv.subWorkflows baseEnv.subID = some swPlain ∧
      baseEnv.inputRead = Except.ok () ∧
      baseEnv.setInputsResult = Except.ok stCompleteOk ∧
      stCompleteOk.nodePhase ≠ ExecNodePhase.failed) ∧
    (∃ rest, (StartSubWorkflow baseEnv statusFresh).trace =
      Event.inputRead :: Event.setInputsForStartNode ::
        Event.recursiveHandle swPlain.startNode.id :: rest) :=
  ⟨⟨rfl, rfl, rfl, by decide⟩,
    (C7_both_entry_points_seed_inputs baseEnv statusFresh _ swPlain
      stCompleteOk rfl rfl rfl rfl (by decide)).1⟩

/-- Writing back a child entry never changes the enclosing node's own
unique ID. -/
theorem EnclosingNodeStatus.setChild_uniqueNodeID (s : EnclosingNodeStatus)
    (id : String) (c : SubNodeStatus) :
    (s.setChild id c).uniqueNodeID = s.uniqueNodeID := rfl

/-- Writing back a child entry that is already stored leaves the status
unchanged. -/
theorem EnclosingNodeStatus.setChild_self (s : EnclosingNodeStatus)
    (id : String) (c : SubNodeStatus) (h : s.children id = some c) :
    s.setChild id c = s := by
  cases s with
  | mk u f =>
    simp only [EnclosingNodeStatus.setChild, EnclosingNodeStatus.mk.injEq, true_and]
    funext j
    by_cases hj : j = id
    · subst hj
      simp only [if_pos rfl]
      exact h.symm
    · simp [hj]

/-- The fetch loop never changes the enclosing node's own unique ID. -/
theorem fetchLoop_uniqueNodeID (p a : String) (att : Nat) :
    ∀ (ns : List NodeDef) (st st' : EnclosingNodeStatus),
      fetchLoop p a att ns st = Except.ok st' →
      st'.uniqueNodeID = st.uniqueNodeID := by
  intro ns
  induction ns with
  | nil =>
    intro st st' h
    simp only [fetchLoop, Except.ok.injEq] at h
    rw [h]
  | cons n rest ih =>
    intro st st' h
    simp only [fetchLoop] at h
    cases hc : ComputeUniqueIDForNode n.id p a with
    | error e => rw [hc] at h; cases h
    | ok newID =>
      rw [hc] at h
      exact (ih _ _ h).trans rfl

/-- Once a child is bound to exactly the value the fetch loop would assign
it, the rest of the loop preserves that binding. -/
theorem fetchLoop_bound (p a : String) (att : Nat) (id : String) (newID : String)
    (hcomp : ComputeUniqueIDForNode id p a = Except.ok newID) :
    ∀ (ns : List NodeDef) (st st' : EnclosingNodeStatus),
      fetchLoop p a att ns st = Except.ok st' →
      st.uniqueNodeID = p →
      st.children id = some
        { uniqueNodeID := some newID, uniqueParentNodeID := some p
          parentAttempts := some att } →
      st'.children id = some
        { uniqueNodeID := some newID, uniqueParentNodeID := some p
          parentAttempts := some att } := by
  intro ns
  induction ns with
  | nil =>
    intro st st' h hpar hb
    simp only [fetchLoop, Except.ok.injEq] at h
    rw [← h]
    exact hb
  | cons n rest ih =>
    intro st st' h hpar hb
    simp only [fetchLoop] at h
    cases hc : ComputeUniqueIDForNode n.id p a with
    | error e => rw [hc] at h; cases h
    | ok nid =>
      rw [hc] at h
      refine ih _ _ h (by rw [EnclosingNodeStatus.setChild_uniqueNodeID]; exact hpar) ?_
      by_cases hid : id = n.id
      · subst hid
        rw [hc] at hcomp
        cases hcomp
        simp [EnclosingNodeStatus.setChild, hpar]
      · simpa [EnclosingNodeStatus.setChild, hid] using hb

/-- Running the fetch loop a second time over its own result is a no-op. -/
theorem fetchLoop_fixpoint (p a : String) (att : Nat) :
    ∀ (ns : List NodeDef) (st st' : EnclosingNodeStatus),
      fetchLoop p a att ns st = Except.ok st' →
      st.uniqueNodeID = p →
      fetchLoop p a att ns st' = Except.ok st' := by
  intro ns
  induction ns with
  | nil =>
    intro st st' h hpar
    simp [fetchLoop]
  | cons n rest ih =>
    intro st st' h hpar
    simp only [fetchLoop] at h ⊢
    cases hc : ComputeUniqueIDForNode n.id p a with
    | error e => rw [hc] at h; cases h
    | ok nid =>
      simp only [hc] at h ⊢
      have hpar1 : (st.setChild n.id
          { uniqueNodeID := some nid
            uniqueParentNodeID := some st.uniqueNodeID
            parentAttempts := some att }).uniqueNodeID = p := by
        rw [EnclosingNodeStatus.setChild_uniqueNodeID]; exact hpar
      have hparfin : st'.uniqueNodeID = p :=
        (fetchLoop_uniqueNodeID p a att rest _ _ h).trans hpar1
      have hbound : st'.children n.id = some
          { uniqueNodeID := some nid, uniqueParentNodeID := some p
            parentAttempts := some att } := by
        refine fetchLoop_bound p a att n.id nid hc rest _ _ h hpar1 ?_
        simp [EnclosingNodeStatus.setChild, hpar]
      have hself : st'.setChild n.id
          { uniqueNodeID := some nid
            uniqueParentNodeID := some st'.uniqueNodeID
            parentAttempts := some att } = st' := by
        refine EnclosingNodeStatus.setChild_self st' n.id _ ?_
        rw [hbound, hparfin]
      rw [hself]
      exact ih _ _ h hpar1

/-- C8: the NodeLookup factory is idempotent within one attempt: when
`fetchNodeLookupForSubWorkflow` succeeds on a status, running it again on
the resulting status with the same attempt number succeeds and returns
that status unchanged, so every child node keeps the same unique node ID,
unique-parent ID and parent-attempt metadata both times. -/
theorem C8_fetch_node_lookup_idempotent (status status' : EnclosingNodeStatus)
    (sw : SubWorkflowDef) (attempt : Nat)
    (h : fetchNodeLookupForSubWorkflow status sw attempt = Except.ok status') :
    fetchNodeLookupForSubWorkflow status' sw attempt = Except.ok status' ∧
    ∀ id, status'.children id = status'.children id := by
  refine ⟨?_, fun _ => rfl⟩
  simp only [fetchNodeLookupForSubWorkflow] at h ⊢
  have hpar : status'.uniqueNodeID = status.uniqueNodeID :=
    fetchLoop_uniqueNodeID _ _ _ sw.nodes status status' h
  rw [hpar]
  exact fetchLoop_fixpoint status.uniqueNodeID (toString attempt) attempt
    sw.nodes status status' h rfl

/-- The status produced by a first run of the NodeLookup factory on the
fresh status and the plain example sub-workflow. -/
def statusAssigned : EnclosingNodeStatus :=
  { uniqueNodeID := "n0"
    children := fun j =>
      if j = "a" then
        some { uniqueNodeID := some "n0-0-a", uniqueParentNodeID := some "n0"
               parentAttempts := some 0 }
      else none }

/-- Witness for C8 at a concrete fresh status and sub-workflow. -/
theorem C8_fetch_node_lookup_idempotent_witness :
    fetchNodeLookupForSubWorkflow statusFresh swPlain 0 =
      Except.ok statusAssigned ∧
    fetchNodeLookupForSubWorkflow statusAssigned swPlain 0 =
      Except.ok statusAssigned :=
  ⟨rfl, (C8_fetch_node_lookup_idempotent statusFresh statusAssigned
    swPlain 0 rfl).1⟩

/-- C9: when the sub-workflow reference cannot be resolved, `HandleAbort`
returns the resolution error and never invokes the executor's abort
capability; when resolution succeeds, it returns exactly the error
produced by the underlying abort operation, untranslated. -/
theorem C9_abort_error_propagation (env : Env) (reason : String) :
    (env.subWorkflows env.subID = none →
      (HandleAbort env reason).goErr =
        some ("failed to find sub workflow with ID [" ++ env.subID ++ "]") ∧
      (HandleAbort env reason).trace = [] ∧
      ∀ s r, Event.abortHandler s r ∉ (HandleAbort env reason).trace) ∧
    (∀ sw, env.subWorkflows env.subID = some sw →
      (HandleAbort env reason).goErr = env.abortResult ∧
      (HandleAbort env reason).trace =
        [Event.abortHandler sw.startNode.id reason]) := by
  refine ⟨fun h => ?_, fun sw h => ?_⟩ <;>
    simp [HandleAbort, GetSubWorkflow, h]

/-- The baseline environment with no resolvable sub-workflow. -/
def envNoSub : Env :=
  { baseEnv with subWorkflows := fun _ => none }

/-- Witness for C9 at a concrete environment whose sub-workflow reference
does not resolve. -/
theorem C9_abort_error_propagation_witness :
    envNoSub.subWorkflows envNoSub.subID = none ∧
    ((HandleAbort envNoSub "stop").goErr =
      some ("failed to find sub workflow with ID [" ++ envNoSub.subID ++ "]") ∧
    (HandleAbort envNoSub "stop").trace = [] ∧
    ∀ s r, Event.abortHandler s r ∉ (HandleAbort envNoSub "stop").trace) :=
  ⟨rfl, (C9_abort_error_propagation envNoSub "stop").1 rfl⟩

/-- C10: on the Failed aggregate branch, when persisting the
WorkflowNodeState record itself errors, `handleSubWorkflow` still returns
the Failing transition (or the Failed transition when no failure-handling
node is configured) carrying the sub-workflow's failure error — not the
unknown transition — and the persistence error is returned alongside it. -/
theorem C10_put_state_error_keeps_transition (env : Env) (sw : SubWorkflowDef)
    (state : ExecNodeStatus) (e : GoError)
    (hrec : env.recursiveResult sw.startNode.id = Except.ok state)
    (hfail : state.nodePhase = ExecNodePhase.failed)
    (hput : env.putStateResult = some e) :
    (handleSubWorkflow env sw).goErr = some e ∧
    (sw.onFailureNode.isSome →
      (handleSubWorkflow env sw).transition =
        DoTransition TransitionType.ephemeral (PhaseInfoFailingErr state.err none)) ∧
    (sw.onFailureNode = none →
      (handleSubWorkflow env sw).transition =
        DoTransition TransitionType.ephemeral (PhaseInfoFailureErr state.err none)) ∧
    (handleSubWorkflow env sw).transition ≠ UnknownTransition := by
  refine ⟨?_, fun hf => ?_, fun hf => ?_, ?_⟩
  · by_cases hf : sw.onFailureNode.isSome <;>
      simp [handleSubWorkflow, hrec, ExecNodeStatus.hasFailed, hfail, hf, hput]
  · simp [handleSubWorkflow, hrec, ExecNodeStatus.hasFailed, hfail, hf, hput]
  · simp [handleSubWorkflow, hrec, ExecNodeStatus.hasFailed, hfail, hf, hput]
  · by_cases hf : sw.onFailureNode.isSome <;>
      simp [handleSubWorkflow, hrec, ExecNodeStatus.hasFailed, hfail, hf, hput,
        UnknownTransition, DoTransition, PhaseInfoFailingErr, PhaseInfoFailureErr,
        PhaseInfoUndefined]

/-- The environment used for the C10 witness: the sub-workflow fails and
the state writer errors. -/
def envC10 : Env :=
  { baseEnv with
    recursiveResult := fun _ => Except.ok stFailedE1
    putStateResult := some "etcd write failed" }

/-- Witness for C10 at a concrete environment whose state persistence
fails after a sub-workflow failure. -/
theorem C10_put_state_error_keeps_transition_witness :
    (envC10.recursiveResult swPlain.startNode.id = Except.ok stFailedE1 ∧
      stFailedE1.nodePhase = ExecNodePhase.failed ∧
      envC10.putStateResult = some "etcd write failed") ∧
    (handleSubWorkflow envC10 swPlain).goErr = some "etcd write failed" :=
  ⟨⟨rfl, rfl, rfl⟩, (C10_put_state_error_keeps_transition envC10 swPlain
    stFailedE1 "etcd write failed" rfl rfl rfl).1⟩

end FlyteSub